import Mathlib

/-
Shallow embedding of `services/image_upscaler/upscaler.py` (Real-ESRGAN
dispatch module).  Pure dispatch logic (model registry, blend-weight
computation, device policy, half-precision gating, extension selection) is
translated directly; the external collaborators (filesystem weight cache,
network downloads via basicsr's `load_file_from_url`, cv2 decode/encode,
torch availability queries, the inference engines themselves) are modelled
as explicit state threading plus oracles in an `Env` record, with an event
trace recording the side effects the code performs and their order.
Floating-point strengths are modelled as rationals: the claims under study
are about the dispatch algebra, not IEEE rounding.
-/

/-- Characters after the last slash of a URL, as a string.  Models
`os.path.basename(urlparse(url).path)`, which the external basicsr
`load_file_from_url` uses (with `file_name=None`) to derive the cached
file's name from the URL. -/
def urlBasename (url : String) : String :=
  String.mk (url.data.foldl (fun acc c => if c = '/' then [] else acc ++ [c]) [])

/-- Auxiliary: if `pat` is a prefix of the character list, return the
remainder after it. -/
def stripPrefixChars : List Char → List Char → Option (List Char)
  | [], s => some s
  | _ :: _, [] => none
  | p :: ps, c :: cs => if p = c then stripPrefixChars ps cs else none

/-- Fuel-indexed worker for `stringReplace`; the fuel (the input length)
makes the recursion structural. -/
def replaceAux (pat rep : List Char) : Nat → List Char → List Char
  | 0, s => s
  | _ + 1, [] => []
  | fuel + 1, c :: rest =>
    match stripPrefixChars pat (c :: rest) with
    | some rem => rep ++ replaceAux pat rep fuel rem
    | none => c :: replaceAux pat rep fuel rest

/-- Model of Python `str.replace` (replace every non-overlapping occurrence,
left to right), used by `upscale` line 31 to derive the wdn weight path. -/
def stringReplace (s pat rep : String) : String :=
  String.mk (replaceAux pat.data rep.data s.data.length s.data)

/-- Modelled from the spec: the `ModelName` string enum lives in
`services/image_upscaler/schema.py`, which is not among the provided source
files.  Its values are taken from the spec's model identifiers and the
weight-file naming scheme (`<model_identifier>.pth`); the v3 identifiers use
dashes, as required for the path substitution on line 31 of `upscale` (the
substring `realesr-general-x4v3` must occur in `weights/<name>.pth`) and to
match the release-asset file names. -/
def ModelName.RealESRGAN_x4plus : String := "RealESRGAN_x4plus"

def ModelName.RealESRGAN_x2plus : String := "RealESRGAN_x2plus"

def ModelName.RealESRGAN_x4plus_anime_6B : String := "RealESRGAN_x4plus_anime_6B"

def ModelName.realesr_animevideov3 : String := "realesr-animevideov3"

def ModelName.realesr_general_x4v3 : String := "realesr-general-x4v3"

def ModelName.UltraSharp_x4 : String := "UltraSharp_x4"

/-- The closed set of supported model identifiers (the six branches of
`_get_model`). -/
def supportedModels : List String :=
  [ModelName.RealESRGAN_x4plus, ModelName.RealESRGAN_x2plus,
   ModelName.RealESRGAN_x4plus_anime_6B, ModelName.realesr_animevideov3,
   ModelName.realesr_general_x4v3, ModelName.UltraSharp_x4]

/-- Device preference enum from `schema.py` (values evident from the string
comparisons in `upscale` line 39 and the literals returned by
`_get_device_type`). -/
inductive DeviceType
  | AUTO
  | CPU
  | CUDA
  | MPS
deriving DecidableEq, Repr

/-- String value of a `DeviceType` member, as used on line 39. -/
def DeviceType.value : DeviceType → String
  | DeviceType.AUTO => "auto"
  | DeviceType.CPU => "cpu"
  | DeviceType.CUDA => "cuda"
  | DeviceType.MPS => "mps"

/-- Network architecture descriptor: the constructor calls on lines 87-110
(`RRDBNet(...)` / `SRVGGNetCompact(...)`) with their hyperparameters.  The
networks themselves are external; only the configuration is modelled. -/
inductive NetworkModel
  | RRDBNet (num_in_ch num_out_ch num_feat num_block num_grow_ch scale : Nat)
  | SRVGGNetCompact (num_in_ch num_out_ch num_feat num_conv upscale : Nat) (act_type : String)
deriving DecidableEq, Repr

/-- The `ModelEntity` record built by `_get_model` (line 115). -/
structure ModelEntity where
  model : NetworkModel
  netscale : Nat
  file_url : List String
deriving DecidableEq, Repr

/-- The caller-supplied request (`UpscaleRequest` in `schema.py`; the fields
are exactly those `upscale` reads from `params`). -/
structure UpscaleRequest where
  model_name : String
  denoise_strength : Option ℚ
  device_type : DeviceType
  tile : Nat
  tile_pad : Nat
  pre_pad : Nat
  fp32 : Bool
  gpu_id : Option Nat
  face_enhance : Bool
  outscale : ℚ
  ext : String
deriving DecidableEq, Repr

/-- Errors raised by the module.  `invalidModel` is the `ValueError` of
`_get_model`; `deviceUnavailable` the `RuntimeError` of `_get_device_type`;
`runtimeError` a `RuntimeError` escaping the enhancement call;
`encodingFailed` the `RuntimeError` of line 78; `noneTypeAttribute` the
`AttributeError` raised on line 58 when `cv2.imdecode` returned `None` and
`img.shape` is dereferenced without a guard. -/
inductive UpscaleError
  | invalidModel
  | deviceUnavailable (msg : String)
  | runtimeError (msg : String)
  | encodingFailed
  | noneTypeAttribute
deriving DecidableEq, Repr

/-- State of the `weights/` directory: the names of the files present in
it.  The relative check directory of line 121 and the absolute download
directory of line 126 are modelled as the same directory (the code assumes
the working directory is the project root). -/
structure FsState where
  files : List String
deriving DecidableEq, Repr

/-- Observable side effects of a pipeline run, in order of occurrence. -/
inductive Event
  | cacheRead (path : String)
  | download (url : String)
  | deviceQuery
  | buildUpsampler (model_path : List String) (dni_weight : Option (List ℚ)) (half : Bool)
  | decodeImage
  | buildFaceEnhancer
  | enhance
  | logError (msg : String)
  | encode
deriving DecidableEq, Repr

/-- Whether an event is a network download. -/
def Event.isDownload : Event → Bool
  | Event.download _ => true
  | _ => false

/-- Number of network downloads recorded in a trace. -/
def countDownloads (evs : List Event) : Nat :=
  (evs.filter Event.isDownload).length

/-- Number of enhancement invocations recorded in a trace. -/
def countEnhance (evs : List Event) : Nat :=
  evs.count Event.enhance

/-- Model of basicsr's `load_file_from_url(url, model_dir, ...)`: derive the
cached file name from the URL basename, download only if that file is not
already present, and return its path in the weights directory. -/
def load_file_from_url (s : FsState) (url : String) : FsState × List Event × String :=
  let name := urlBasename url
  if name ∈ s.files then (s, [], "weights/" ++ name)
  else ({ files := name :: s.files }, [Event.download url], "weights/" ++ name)

/-- The `for url in file_url` loop of `_get_model_path` (lines 123-126):
`model_path` is overwritten by each download's returned path. -/
def downloadLoop : FsState → String → List String → FsState × List Event × String
  | s, model_path, [] => (s, [], model_path)
  | s, _, url :: rest =>
    let r := load_file_from_url s url
    let r2 := downloadLoop r.1 r.2.2 rest
    (r2.1, r.2.1 ++ r2.2.1, r2.2.2)

/-- Embedding of `_get_model_path` (lines 117-127): check the cache for the
single file `weights/<model_name>.pth`; on a miss, fetch every URL of the
descriptor in order. -/
def _get_model_path (s : FsState) (model_name : String) (file_url : List String) :
    FsState × List Event × String :=
  let model_path := "weights/" ++ model_name ++ ".pth"
  if (model_name ++ ".pth") ∈ s.files then
    (s, [Event.cacheRead model_path], model_path)
  else
    let r := downloadLoop s model_path file_url
    (r.1, Event.cacheRead model_path :: r.2.1, r.2.2)

/-- Embedding of `_get_model` (lines 83-115): the if/elif chain over the
model name, yielding architecture, scale and URL list, with `ValueError`
(`invalidModel`) on the final else. -/
def _get_model (model_name : String) : Except UpscaleError ModelEntity :=
  if model_name = ModelName.RealESRGAN_x4plus then
    Except.ok
      { model := NetworkModel.RRDBNet 3 3 64 23 32 4, netscale := 4,
        file_url := ["https://github.com/xinntao/Real-ESRGAN/releases/download/v0.1.0/RealESRGAN_x4plus.pth"] }
  else if model_name = ModelName.RealESRGAN_x2plus then
    Except.ok
      { model := NetworkModel.RRDBNet 3 3 64 23 32 2, netscale := 2,
        file_url := ["https://github.com/xinntao/Real-ESRGAN/releases/download/v0.2.1/RealESRGAN_x2plus.pth"] }
  else if model_name = ModelName.RealESRGAN_x4plus_anime_6B then
    Except.ok
      { model := NetworkModel.RRDBNet 3 3 64 6 32 4, netscale := 4,
        file_url := ["https://github.com/xinntao/Real-ESRGAN/releases/download/v0.2.2.4/RealESRGAN_x4plus_anime_6B.pth"] }
  else if model_name = ModelName.realesr_animevideov3 then
    Except.ok
      { model := NetworkModel.SRVGGNetCompact 3 3 64 16 4 "prelu", netscale := 4,
        file_url := ["https://github.com/xinntao/Real-ESRGAN/releases/download/v0.2.5.0/realesr-animevideov3.pth"] }
  else if model_name = ModelName.realesr_general_x4v3 then
    Except.ok
      { model := NetworkModel.SRVGGNetCompact 3 3 64 32 4 "prelu", netscale := 4,
        file_url := ["https://github.com/xinntao/Real-ESRGAN/releases/download/v0.2.5.0/realesr-general-wdn-x4v3.pth",
                     "https://github.com/xinntao/Real-ESRGAN/releases/download/v0.2.5.0/realesr-general-x4v3.pth"] }
  else if model_name = ModelName.UltraSharp_x4 then
    Except.ok
      { model := NetworkModel.RRDBNet 3 3 64 23 32 4, netscale := 4,
        file_url := ["https://github.com/dmcooller/Not-Real-ESRGAN/releases/download/v0.3.1/UltraSharp_x4.pth"] }
  else
    Except.error UpscaleError.invalidModel

/-- Embedding of the denoise-blend computation of `upscale` lines 29-33:
for the blend-capable model with a supplied strength distinct from 1, the
path list becomes `[model_path, wdn_model_path]` (wdn path obtained by name
substitution) and `dni_weight = [strength, 1 - strength]`; otherwise the
single path and no weights. -/
def blendParams (model_name : String) (denoise_strength : Option ℚ) (model_path : String) :
    List String × Option (List ℚ) :=
  match denoise_strength with
  | some s =>
    if model_name = ModelName.realesr_general_x4v3 ∧ s ≠ 1 then
      ([model_path, stringReplace model_path "realesr-general-x4v3" "realesr-general-wdn-x4v3"],
       some [s, 1 - s])
    else ([model_path], none)
  | none => ([model_path], none)

/-- Hardware availability as reported by `torch.cuda.is_available` and
`torch.backends.mps.is_available`. -/
structure Hw where
  cudaAvailable : Bool
  mpsAvailable : Bool
deriving DecidableEq, Repr

/-- Embedding of `_get_device_type` (lines 140-164): the match over the
preference, raising `RuntimeError` (`deviceUnavailable`) when an explicitly
requested accelerator is absent.  The `logger.debug` call has no functional
effect and is not modelled. -/
def _get_device_type (hw : Hw) (backend_type : DeviceType) : Except UpscaleError String :=
  match backend_type with
  | DeviceType.AUTO =>
    if hw.cudaAvailable then Except.ok "cuda"
    else if hw.mpsAvailable then Except.ok "mps"
    else Except.ok "cpu"
  | DeviceType.CUDA =>
    if hw.cudaAvailable then Except.ok "cuda"
    else Except.error (UpscaleError.deviceUnavailable "CUDA is not available")
  | DeviceType.CPU => Except.ok "cpu"
  | DeviceType.MPS =>
    if hw.mpsAvailable then Except.ok "mps"
    else Except.error (UpscaleError.deviceUnavailable "MPS is not available")

/-- Embedding of `upscale` line 39:
`half = not params.fp32 if device in [cuda, mps] else False`. -/
def halfFlag (device : String) (fp32 : Bool) : Bool :=
  if device = DeviceType.CUDA.value ∨ device = DeviceType.MPS.value then !fp32 else false

/-- Embedding of `_get_extension` (lines 129-138).  `img_mode` is `'RGBA'`
or `None` in the code, here an `Option String`. -/
def _get_extension (img_mode : Option String) (ext : String) : String :=
  if img_mode = some "RGBA" then "png"
  else if ext = "auto" then "jpg"
  else ext

/-- Decoded image: its numpy shape (line 58 inspects `len(img.shape)` and
`img.shape[2]`). -/
structure Img where
  shape : List Nat
deriving DecidableEq, Repr

/-- Oracles for the external collaborators of one `upscale` call: hardware
availability, the result of `cv2.imdecode` on the input bytes (`none` when
the bytes are not a decodable image), the outcome of the enhancement call
(inference output abstracted to a `Nat` token, or the message of the
`RuntimeError` it raises), and whether `cv2.imencode` succeeds. -/
structure Env where
  hw : Hw
  decoded : Option Img
  enhanceOutcome : Except String Nat
  encodeOk : Bool

/-- Embedding of `upscale` (lines 18-80), threading the weight-cache state
and recording an event trace.  Result: final cache state, trace, and either
the `(output, extension)` pair or the error raised.  Step order follows the
source: registry lookup, weight resolution, blend computation, device
resolution, upsampler construction, decode, (optional face-enhancer
construction and) enhancement with `RuntimeError` logging and re-raise,
extension selection, encode. -/
def upscale (env : Env) (s : FsState) (params : UpscaleRequest) :
    FsState × List Event × Except UpscaleError (Nat × String) :=
  match _get_model params.model_name with
  | Except.error e => (s, [], Except.error e)
  | Except.ok model_entity =>
    let rp := _get_model_path s params.model_name model_entity.file_url
    let bp := blendParams params.model_name params.denoise_strength rp.2.2
    match _get_device_type env.hw params.device_type with
    | Except.error e => (rp.1, rp.2.1 ++ [Event.deviceQuery], Except.error e)
    | Except.ok device =>
      let half := halfFlag device params.fp32
      let ev2 := rp.2.1 ++ [Event.deviceQuery, Event.buildUpsampler bp.1 bp.2 half]
      match env.decoded with
      | none => (rp.1, ev2 ++ [Event.decodeImage], Except.error UpscaleError.noneTypeAttribute)
      | some img =>
        let img_mode : Option String :=
          if img.shape.length = 3 ∧ img.shape.getD 2 0 = 4 then some "RGBA" else none
        let ev3 := ev2 ++ [Event.decodeImage] ++
          (if params.face_enhance then [Event.buildFaceEnhancer] else []) ++ [Event.enhance]
        match env.enhanceOutcome with
        | Except.error msg =>
          (rp.1, ev3 ++ [Event.logError msg], Except.error (UpscaleError.runtimeError msg))
        | Except.ok output =>
          let extension := _get_extension img_mode params.ext
          if env.encodeOk then
            (rp.1, ev3 ++ [Event.encode], Except.ok (output, extension))
          else
            (rp.1, ev3 ++ [Event.encode], Except.error UpscaleError.encodingFailed)

/-! Helper lemmas about traces and the weight cache. -/

theorem countDownloads_append (l1 l2 : List Event) :
    countDownloads (l1 ++ l2) = countDownloads l1 + countDownloads l2 := by
  simp [countDownloads]

theorem countDownloads_cacheRead (p : String) (l : List Event) :
    countDownloads (Event.cacheRead p :: l) = countDownloads l := by
  simp [countDownloads, Event.isDownload]

theorem load_mem_basename (s : FsState) (url : String) :
    urlBasename url ∈ (load_file_from_url s url).1.files := by
  by_cases h : urlBasename url ∈ s.files <;> simp [load_file_from_url, h]

theorem load_mono (s : FsState) (url a : String) (ha : a ∈ s.files) :
    a ∈ (load_file_from_url s url).1.files := by
  by_cases h : urlBasename url ∈ s.files <;> simp [load_file_from_url, h, ha]

theorem load_count_le (s : FsState) (url : String) :
    countDownloads (load_file_from_url s url).2.1 ≤ 1 := by
  by_cases h : urlBasename url ∈ s.files <;>
    simp [load_file_from_url, h, countDownloads, Event.isDownload]

theorem load_events (s : FsState) (url : String) (e : Event)
    (he : e ∈ (load_file_from_url s url).2.1) : Event.isDownload e = true := by
  by_cases h : urlBasename url ∈ s.files <;> simp [load_file_from_url, h] at he
  subst he; rfl

theorem downloadLoop_mono (urls : List String) :
    ∀ (s : FsState) (mp a : String), a ∈ s.files → a ∈ (downloadLoop s mp urls).1.files := by
  induction urls with
  | nil => intro s mp a ha; simpa [downloadLoop] using ha
  | cons u rest ih =>
    intro s mp a ha
    simp only [downloadLoop]
    exact ih _ _ _ (load_mono s u a ha)

theorem downloadLoop_mem (urls : List String) :
    ∀ (s : FsState) (mp u : String), u ∈ urls →
      urlBasename u ∈ (downloadLoop s mp urls).1.files := by
  induction urls with
  | nil => intro s mp u hu; simp at hu
  | cons v rest ih =>
    intro s mp u hu
    rcases List.mem_cons.mp hu with h | h
    · subst h
      simp only [downloadLoop]
      exact downloadLoop_mono rest _ _ _ (load_mem_basename s u)
    · simp only [downloadLoop]
      exact ih _ _ _ h

theorem downloadLoop_count_le (urls : List String) :
    ∀ (s : FsState) (mp : String),
      countDownloads (downloadLoop s mp urls).2.1 ≤ urls.length := by
  induction urls with
  | nil => intro s mp; simp [downloadLoop, countDownloads]
  | cons u rest ih =>
    intro s mp
    simp only [downloadLoop, countDownloads_append, List.length_cons]
    have h1 := load_count_le s u
    have h2 := ih (load_file_from_url s u).1 (load_file_from_url s u).2.2
    omega

theorem downloadLoop_events (urls : List String) :
    ∀ (s : FsState) (mp : String) (e : Event),
      e ∈ (downloadLoop s mp urls).2.1 → Event.isDownload e = true := by
  induction urls with
  | nil => intro s mp e he; simp [downloadLoop] at he
  | cons u rest ih =>
    intro s mp e he
    simp only [downloadLoop, List.mem_append] at he
    rcases he with h | h
    · exact load_events s u e h
    · exact ih _ _ _ h

theorem get_model_path_events (s : FsState) (name : String) (urls : List String) (e : Event)
    (he : e ∈ (_get_model_path s name urls).2.1) :
    e = Event.cacheRead ("weights/" ++ name ++ ".pth") ∨ Event.isDownload e = true := by
  by_cases h : (name ++ ".pth") ∈ s.files
  · simp [_get_model_path, h] at he
    exact Or.inl he
  · simp only [_get_model_path, if_neg h, List.mem_cons] at he
    rcases he with h1 | h1
    · exact Or.inl h1
    · exact Or.inr (downloadLoop_events urls s _ e h1)

theorem resolved_backend_cases (hw : Hw) (pref : DeviceType) (d : String)
    (h : _get_device_type hw pref = Except.ok d) :
    d = "cpu" ∨ d = "cuda" ∨ d = "mps" := by
  obtain ⟨c, m⟩ := hw
  cases c <;> cases m <;> cases pref <;> simp_all [_get_device_type]

/-! Claim theorems. -/

/-- C1: for the blend-capable model `realesr_general_x4v3`, an omitted
strength or strength exactly 1 yields no blend weights and a single weight
path; any other strength yields two weight paths and the blend vector
`[strength, 1 - strength]`, whose entries sum to 1; for every other model
identifier the blend weights are absent regardless of strength. -/
theorem blend_policy_spec (strength : Option ℚ) (path : String) :
    blendParams ModelName.realesr_general_x4v3 none path = ([path], none) ∧
    blendParams ModelName.realesr_general_x4v3 (some 1) path = ([path], none) ∧
    (∀ q : ℚ, q ≠ 1 →
      blendParams ModelName.realesr_general_x4v3 (some q) path =
        ([path, stringReplace path "realesr-general-x4v3" "realesr-general-wdn-x4v3"],
          some [q, 1 - q]) ∧
      q + (1 - q) = 1) ∧
    (∀ name : String, name ≠ ModelName.realesr_general_x4v3 →
      (blendParams name strength path).2 = none) := by
  refine ⟨rfl, by simp [blendParams], fun q hq => ⟨by simp [blendParams, hq], by ring⟩,
    fun name hname => ?_⟩
  cases strength with
  | none => rfl
  | some s => simp [blendParams, hname]

theorem blend_policy_spec_witness :
    blendParams ModelName.realesr_general_x4v3 (some (3/10)) "weights/realesr-general-x4v3.pth" =
      (["weights/realesr-general-x4v3.pth", "weights/realesr-general-wdn-x4v3.pth"],
        some [3/10, 1 - 3/10]) ∧
    (3 : ℚ)/10 + (1 - 3/10) = 1 := by
  have h := (blend_policy_spec (some (3/10)) "weights/realesr-general-x4v3.pth").2.2.1
    (3/10) (by norm_num)
  have hs : stringReplace "weights/realesr-general-x4v3.pth" "realesr-general-x4v3"
      "realesr-general-wdn-x4v3" = "weights/realesr-general-wdn-x4v3.pth" := by decide
  refine ⟨?_, h.2⟩
  rw [h.1, hs]

/-- C2: device resolution is total over the preference enum: `auto` never
fails and prefers cuda, then mps, then cpu; `cpu` always succeeds with cpu;
`cuda` and `mps` succeed exactly when the accelerator is available and fail
with the unavailable error otherwise; every successful resolution is one of
the three concrete backends. -/
theorem device_resolution_spec (hw : Hw) :
    _get_device_type hw DeviceType.AUTO =
      Except.ok (if hw.cudaAvailable then "cuda"
        else if hw.mpsAvailable then "mps" else "cpu") ∧
    _get_device_type hw DeviceType.CPU = Except.ok "cpu" ∧
    (hw.cudaAvailable = true → _get_device_type hw DeviceType.CUDA = Except.ok "cuda") ∧
    (hw.cudaAvailable = false → _get_device_type hw DeviceType.CUDA =
      Except.error (UpscaleError.deviceUnavailable "CUDA is not available")) ∧
    (hw.mpsAvailable = true → _get_device_type hw DeviceType.MPS = Except.ok "mps") ∧
    (hw.mpsAvailable = false → _get_device_type hw DeviceType.MPS =
      Except.error (UpscaleError.deviceUnavailable "MPS is not available")) ∧
    (∀ (pref : DeviceType) (b : String), _get_device_type hw pref = Except.ok b →
      b = "cpu" ∨ b = "cuda" ∨ b = "mps") := by
  obtain ⟨c, m⟩ := hw
  cases c <;> cases m <;>
    refine ⟨rfl, rfl, fun h => ?_, fun h => ?_, fun h => ?_, fun h => ?_,
      fun pref b hb => resolved_backend_cases _ pref b hb⟩ <;>
    first
      | rfl
      | simp at h

theorem device_resolution_spec_witness :
    _get_device_type ⟨false, false⟩ DeviceType.AUTO = Except.ok "cpu" ∧
    _get_device_type ⟨false, false⟩ DeviceType.CUDA =
      Except.error (UpscaleError.deviceUnavailable "CUDA is not available") := by
  have h := device_resolution_spec ⟨false, false⟩
  exact ⟨by simpa using h.1, h.2.2.2.1 rfl⟩

/-- C3: the half-precision flag is true exactly when the resolved backend is
cuda or mps and the request's fp32 flag is false; on cpu it is false for
every fp32 value. -/
theorem half_precision_spec (hw : Hw) (pref : DeviceType) (d : String) (fp32 : Bool)
    (h : _get_device_type hw pref = Except.ok d) :
    (halfFlag d fp32 = true ↔ ((d = "cuda" ∨ d = "mps") ∧ fp32 = false)) ∧
    (d = "cpu" → halfFlag d fp32 = false) := by
  rcases resolved_backend_cases hw pref d h with hd | hd | hd <;> subst hd <;>
    cases fp32 <;> decide

theorem half_precision_spec_witness :
    halfFlag "cpu" false = false :=
  (half_precision_spec ⟨false, false⟩ DeviceType.CPU "cpu" false rfl).2 rfl

/-- C4: extension selection: alpha present (image mode `RGBA`) forces
`png` regardless of the requested extension; otherwise `auto` maps to
`jpg`, and any other request is returned verbatim. -/
theorem extension_selection_spec (img_mode : Option String) (ext : String) :
    (img_mode = some "RGBA" → _get_extension img_mode ext = "png") ∧
    (img_mode ≠ some "RGBA" → ext = "auto" → _get_extension img_mode ext = "jpg") ∧
    (img_mode ≠ some "RGBA" → ext ≠ "auto" → _get_extension img_mode ext = ext) := by
  refine ⟨fun h => by simp [_get_extension, h], fun h1 h2 => by simp [_get_extension, h1, h2],
    fun h1 h2 => by simp [_get_extension, h1, h2]⟩

theorem extension_selection_spec_witness :
    _get_extension (some "RGBA") "jpg" = "png" ∧
    _get_extension none "auto" = "jpg" ∧
    _get_extension none "webp" = "webp" :=
  ⟨(extension_selection_spec (some "RGBA") "jpg").1 rfl,
    (extension_selection_spec none "auto").2.1 (by decide) rfl,
    (extension_selection_spec none "webp").2.2 (by decide) (by decide)⟩

/-- C5: for every supported model identifier the registry resolves to a
descriptor whose remote-URL list has length 2 for the blend-capable model
and length 1 for every other model; `_get_model` is a pure function of the
identifier, so resolution is deterministic. -/
theorem registry_url_count_spec :
    ∀ name ∈ supportedModels, ∃ me : ModelEntity,
      _get_model name = Except.ok me ∧
      me.file_url.length = (if name = ModelName.realesr_general_x4v3 then 2 else 1) := by
  intro name hname
  simp only [supportedModels, List.mem_cons, List.not_mem_nil, or_false] at hname
  rcases hname with h | h | h | h | h | h <;> subst h <;> exact ⟨_, rfl, by decide⟩

theorem registry_url_count_spec_witness :
    ∃ me : ModelEntity, _get_model ModelName.realesr_general_x4v3 = Except.ok me ∧
      me.file_url.length =
        (if ModelName.realesr_general_x4v3 = ModelName.realesr_general_x4v3 then 2 else 1) :=
  registry_url_count_spec ModelName.realesr_general_x4v3 (by decide)

/-- C7: an unsupported model identifier makes the pipeline fail with the
invalid-model error immediately: the cache state is returned unchanged and
the event trace is empty, so no download, cache read or any other side
effect occurred. -/
theorem invalid_model_fails_fast (env : Env) (s : FsState) (params : UpscaleRequest)
    (h : params.model_name ∉ supportedModels) :
    upscale env s params = (s, [], Except.error UpscaleError.invalidModel) := by
  simp only [supportedModels, List.mem_cons, List.not_mem_nil, or_false, not_or] at h
  obtain ⟨h1, h2, h3, h4, h5, h6⟩ := h
  simp [upscale, _get_model, h1, h2, h3, h4, h5, h6]

theorem invalid_model_fails_fast_witness :
    upscale ⟨⟨false, false⟩, none, Except.ok 0, true⟩ ⟨[]⟩
      ⟨"unknown-model", none, DeviceType.AUTO, 0, 10, 0, false, none, false, 4, "auto"⟩ =
      (⟨[]⟩, [], Except.error UpscaleError.invalidModel) :=
  invalid_model_fails_fast _ _ _ (by decide)

/-- C6 (amended): for every supported model, if the cache file
`<model_identifier>.pth` is already present, weight resolution performs no
download and leaves the cache unchanged; the second of two successive calls
is always a cache hit performing no download, and the total number of
downloads over two successive calls is at most the number of URLs in the
descriptor (2 for the blend-capable model, 1 for the others) rather than at
most one. -/
theorem weight_resolution_idempotent_amended (s : FsState) (name : String) (me : ModelEntity)
    (hme : _get_model name = Except.ok me) :
    ((name ++ ".pth") ∈ s.files →
      (_get_model_path s name me.file_url).1 = s ∧
      countDownloads (_get_model_path s name me.file_url).2.1 = 0) ∧
    countDownloads
      (_get_model_path (_get_model_path s name me.file_url).1 name me.file_url).2.1 = 0 ∧
    countDownloads (_get_model_path s name me.file_url).2.1 +
      countDownloads
        (_get_model_path (_get_model_path s name me.file_url).1 name me.file_url).2.1
      ≤ me.file_url.length := by
  have hhit : ∀ t : FsState, (name ++ ".pth") ∈ t.files →
      (_get_model_path t name me.file_url).1 = t ∧
      countDownloads (_get_model_path t name me.file_url).2.1 = 0 := by
    intro t ht
    constructor
    · simp [_get_model_path, ht]
    · simp [_get_model_path, ht, countDownloads, Event.isDownload]
  have hfile : ∀ t : FsState, (name ++ ".pth") ∈ (_get_model_path t name me.file_url).1.files := by
    intro t
    by_cases ht : (name ++ ".pth") ∈ t.files
    · rw [(hhit t ht).1]; exact ht
    · have hurl : ∃ u ∈ me.file_url, urlBasename u = name ++ ".pth" := by
        unfold _get_model at hme
        split_ifs at hme with h1 h2 h3 h4 h5 h6 <;>
          (simp only [Except.ok.injEq] at hme
           subst hme
           first
             | (subst h1; decide)
             | (subst h2; decide)
             | (subst h3; decide)
             | (subst h4; decide)
             | (subst h5; decide)
             | (subst h6; decide))
      obtain ⟨u, hu, hub⟩ := hurl
      have hmem := downloadLoop_mem me.file_url t ("weights/" ++ name ++ ".pth") u hu
      rw [hub] at hmem
      simp only [_get_model_path, if_neg ht]
      exact hmem
  refine ⟨hhit s, (hhit _ (hfile s)).2, ?_⟩
  rw [(hhit _ (hfile s)).2]
  by_cases hmem : (name ++ ".pth") ∈ s.files
  · rw [(hhit s hmem).2]
    omega
  · have hle : countDownloads (_get_model_path s name me.file_url).2.1 ≤ me.file_url.length := by
      simp only [_get_model_path, if_neg hmem, countDownloads_cacheRead]
      exact downloadLoop_count_le me.file_url s _
    omega

theorem weight_resolution_idempotent_amended_witness :
    (_get_model_path ⟨["RealESRGAN_x4plus.pth"]⟩ ModelName.RealESRGAN_x4plus
        ["https://github.com/xinntao/Real-ESRGAN/releases/download/v0.1.0/RealESRGAN_x4plus.pth"]).1 =
      ⟨["RealESRGAN_x4plus.pth"]⟩ ∧
    countDownloads (_get_model_path ⟨["RealESRGAN_x4plus.pth"]⟩ ModelName.RealESRGAN_x4plus
        ["https://github.com/xinntao/Real-ESRGAN/releases/download/v0.1.0/RealESRGAN_x4plus.pth"]).2.1 = 0 :=
  (weight_resolution_idempotent_amended ⟨["RealESRGAN_x4plus.pth"]⟩ ModelName.RealESRGAN_x4plus
    { model := NetworkModel.RRDBNet 3 3 64 23 32 4, netscale := 4,
      file_url := ["https://github.com/xinntao/Real-ESRGAN/releases/download/v0.1.0/RealESRGAN_x4plus.pth"] }
    rfl).1 (by decide)

/-- C6 counterexample: with an empty cache, resolving the blend-capable
model's weights iterates over both descriptor URLs, so the first call alone
performs two downloads; two successive calls therefore perform two downloads
in total, refuting the claim that they perform at most one. -/
theorem weight_download_count_counterexample :
    _get_model ModelName.realesr_general_x4v3 = Except.ok
      { model := NetworkModel.SRVGGNetCompact 3 3 64 32 4 "prelu", netscale := 4,
        file_url := ["https://github.com/xinntao/Real-ESRGAN/releases/download/v0.2.5.0/realesr-general-wdn-x4v3.pth",
                     "https://github.com/xinntao/Real-ESRGAN/releases/download/v0.2.5.0/realesr-general-x4v3.pth"] } ∧
    countDownloads (_get_model_path ⟨[]⟩ ModelName.realesr_general_x4v3
        ["https://github.com/xinntao/Real-ESRGAN/releases/download/v0.2.5.0/realesr-general-wdn-x4v3.pth",
         "https://github.com/xinntao/Real-ESRGAN/releases/download/v0.2.5.0/realesr-general-x4v3.pth"]).2.1 +
      countDownloads (_get_model_path
        (_get_model_path ⟨[]⟩ ModelName.realesr_general_x4v3
          ["https://github.com/xinntao/Real-ESRGAN/releases/download/v0.2.5.0/realesr-general-wdn-x4v3.pth",
           "https://github.com/xinntao/Real-ESRGAN/releases/download/v0.2.5.0/realesr-general-x4v3.pth"]).1
        ModelName.realesr_general_x4v3
        ["https://github.com/xinntao/Real-ESRGAN/releases/download/v0.2.5.0/realesr-general-wdn-x4v3.pth",
         "https://github.com/xinntao/Real-ESRGAN/releases/download/v0.2.5.0/realesr-general-x4v3.pth"]).2.1 = 2 ∧
    ¬ (countDownloads (_get_model_path ⟨[]⟩ ModelName.realesr_general_x4v3
        ["https://github.com/xinntao/Real-ESRGAN/releases/download/v0.2.5.0/realesr-general-wdn-x4v3.pth",
         "https://github.com/xinntao/Real-ESRGAN/releases/download/v0.2.5.0/realesr-general-x4v3.pth"]).2.1 +
      countDownloads (_get_model_path
        (_get_model_path ⟨[]⟩ ModelName.realesr_general_x4v3
          ["https://github.com/xinntao/Real-ESRGAN/releases/download/v0.2.5.0/realesr-general-wdn-x4v3.pth",
           "https://github.com/xinntao/Real-ESRGAN/releases/download/v0.2.5.0/realesr-general-x4v3.pth"]).1
        ModelName.realesr_general_x4v3
        ["https://github.com/xinntao/Real-ESRGAN/releases/download/v0.2.5.0/realesr-general-wdn-x4v3.pth",
         "https://github.com/xinntao/Real-ESRGAN/releases/download/v0.2.5.0/realesr-general-x4v3.pth"]).2.1 ≤ 1) := by
  refine ⟨rfl, by decide, by decide⟩

/-- C9: the weight resolver's cache check tests only the single file
`<model_identifier>.pth`; when the general-purpose file of the
blend-capable model is cached, resolution returns its path untouched with
no download, so the noise-suppressed (wdn) file is never ensured — yet for
any strength other than 1 the blend branch derives the wdn path from the
general path by name substitution and passes it along, and that wdn file
name is absent from the cache. -/
theorem cache_hit_skips_wdn (s : FsState) (me : ModelEntity)
    (hme : _get_model ModelName.realesr_general_x4v3 = Except.ok me)
    (hhit : "realesr-general-x4v3.pth" ∈ s.files)
    (hwdn : "realesr-general-wdn-x4v3.pth" ∉ s.files) :
    (_get_model_path s ModelName.realesr_general_x4v3 me.file_url).1 = s ∧
    countDownloads (_get_model_path s ModelName.realesr_general_x4v3 me.file_url).2.1 = 0 ∧
    (_get_model_path s ModelName.realesr_general_x4v3 me.file_url).2.2 =
      "weights/realesr-general-x4v3.pth" ∧
    (∀ q : ℚ, q ≠ 1 →
      (blendParams ModelName.realesr_general_x4v3 (some q)
          (_get_model_path s ModelName.realesr_general_x4v3 me.file_url).2.2).1 =
        ["weights/realesr-general-x4v3.pth", "weights/realesr-general-wdn-x4v3.pth"]) ∧
    urlBasename "weights/realesr-general-wdn-x4v3.pth" ∉
      (_get_model_path s ModelName.realesr_general_x4v3 me.file_url).1.files := by
  have hh : (ModelName.realesr_general_x4v3 ++ ".pth") ∈ s.files := by
    rw [show ModelName.realesr_general_x4v3 ++ ".pth" = "realesr-general-x4v3.pth" from by decide]
    exact hhit
  have h1 : _get_model_path s ModelName.realesr_general_x4v3 me.file_url =
      (s, [Event.cacheRead ("weights/" ++ ModelName.realesr_general_x4v3 ++ ".pth")],
        "weights/" ++ ModelName.realesr_general_x4v3 ++ ".pth") := by
    simp [_get_model_path, hh]
  have hpath : ("weights/" : String) ++ ModelName.realesr_general_x4v3 ++ ".pth" =
      "weights/realesr-general-x4v3.pth" := by decide
  have hrep : stringReplace "weights/realesr-general-x4v3.pth" "realesr-general-x4v3"
      "realesr-general-wdn-x4v3" = "weights/realesr-general-wdn-x4v3.pth" := by decide
  have hbase : urlBasename "weights/realesr-general-wdn-x4v3.pth" =
      "realesr-general-wdn-x4v3.pth" := by decide
  refine ⟨by rw [h1], by rw [h1]; rfl, by rw [h1]; exact hpath, ?_, ?_⟩
  · intro q hq
    rw [h1]
    simp only []
    rw [hpath]
    simp [blendParams, hq, hrep]
  · rw [h1, hbase]
    exact hwdn

theorem cache_hit_skips_wdn_witness :
    (_get_model_path ⟨["realesr-general-x4v3.pth"]⟩ ModelName.realesr_general_x4v3
        ["https://github.com/xinntao/Real-ESRGAN/releases/download/v0.2.5.0/realesr-general-wdn-x4v3.pth",
         "https://github.com/xinntao/Real-ESRGAN/releases/download/v0.2.5.0/realesr-general-x4v3.pth"]).1 =
      ⟨["realesr-general-x4v3.pth"]⟩ ∧
    urlBasename "weights/realesr-general-wdn-x4v3.pth" ∉
      (_get_model_path ⟨["realesr-general-x4v3.pth"]⟩ ModelName.realesr_general_x4v3
        ["https://github.com/xinntao/Real-ESRGAN/releases/download/v0.2.5.0/realesr-general-wdn-x4v3.pth",
         "https://github.com/xinntao/Real-ESRGAN/releases/download/v0.2.5.0/realesr-general-x4v3.pth"]).1.files := by
  have h := cache_hit_skips_wdn ⟨["realesr-general-x4v3.pth"]⟩
    { model := NetworkModel.SRVGGNetCompact 3 3 64 32 4 "prelu", netscale := 4,
      file_url := ["https://github.com/xinntao/Real-ESRGAN/releases/download/v0.2.5.0/realesr-general-wdn-x4v3.pth",
                   "https://github.com/xinntao/Real-ESRGAN/releases/download/v0.2.5.0/realesr-general-x4v3.pth"] }
    rfl (by decide) (by decide)
  exact ⟨h.1, h.2.2.2.2⟩

theorem get_model_path_not_run (s : FsState) (name : String) (urls : List String) :
    Event.enhance ∉ (_get_model_path s name urls).2.1 ∧
    Event.encode ∉ (_get_model_path s name urls).2.1 ∧
    countEnhance (_get_model_path s name urls).2.1 = 0 := by
  have he : Event.enhance ∉ (_get_model_path s name urls).2.1 := by
    intro hc
    rcases get_model_path_events s name urls _ hc with h | h
    · simp at h
    · simp [Event.isDownload] at h
  have hc : Event.encode ∉ (_get_model_path s name urls).2.1 := by
    intro hcc
    rcases get_model_path_events s name urls _ hcc with h | h
    · simp at h
    · simp [Event.isDownload] at h
  exact ⟨he, hc, by simp [countEnhance, List.count_eq_zero, he]⟩

/-- C8: when the enhancement call fails with a runtime error, `upscale`
logs exactly that message and re-raises the same error unchanged — the
enhancement was attempted exactly once (no retry), nothing was encoded and
no fallback result is produced; and in general every run either returns a
complete (buffer, extension) pair or an error, never a partial result. -/
theorem enhance_error_propagation :
    (∀ (env : Env) (s : FsState) (params : UpscaleRequest) (me : ModelEntity)
        (d msg : String) (img : Img),
      _get_model params.model_name = Except.ok me →
      _get_device_type env.hw params.device_type = Except.ok d →
      env.decoded = some img →
      env.enhanceOutcome = Except.error msg →
      (upscale env s params).2.2 = Except.error (UpscaleError.runtimeError msg) ∧
      Event.logError msg ∈ (upscale env s params).2.1 ∧
      Event.encode ∉ (upscale env s params).2.1 ∧
      countEnhance (upscale env s params).2.1 = 1) ∧
    (∀ (env : Env) (s : FsState) (params : UpscaleRequest),
      (∃ v, (upscale env s params).2.2 = Except.ok v) ∨
      (∃ e, (upscale env s params).2.2 = Except.error e)) := by
  constructor
  · intro env s params me d msg img hme hdev hdec henh
    have hnr := get_model_path_not_run s params.model_name me.file_url
    have hz : List.count Event.enhance (_get_model_path s params.model_name me.file_url).2.1 = 0 :=
      hnr.2.2
    refine ⟨by simp [upscale, hme, hdev, hdec, henh], by simp [upscale, hme, hdev, hdec, henh],
      ?_, ?_⟩
    · by_cases hf : params.face_enhance <;>
        simp [upscale, hme, hdev, hdec, henh, hf, hnr.2.1]
    · by_cases hf : params.face_enhance <;>
        simp [upscale, hme, hdev, hdec, henh, hf, countEnhance, hz]
  · intro env s params
    cases hv : (upscale env s params).2.2 with
    | error e => exact Or.inr ⟨e, rfl⟩
    | ok v => exact Or.inl ⟨v, rfl⟩

/-- C10: on input bytes that do not decode to an image, `upscale` fails
with the unguarded-dereference error before any enhancement or encoding —
but only after device resolution, upsampler construction, and any weight
resolution (with its downloads) have already happened, as the trace
equation shows. -/
theorem decode_none_late_failure (env : Env) (s : FsState) (params : UpscaleRequest)
    (me : ModelEntity) (d : String)
    (hme : _get_model params.model_name = Except.ok me)
    (hdev : _get_device_type env.hw params.device_type = Except.ok d)
    (hdec : env.decoded = none) :
    (upscale env s params).2.2 = Except.error UpscaleError.noneTypeAttribute ∧
    (upscale env s params).1 = (_get_model_path s params.model_name me.file_url).1 ∧
    (upscale env s params).2.1 =
      (_get_model_path s params.model_name me.file_url).2.1 ++
        [Event.deviceQuery,
          Event.buildUpsampler
            (blendParams params.model_name params.denoise_strength
              (_get_model_path s params.model_name me.file_url).2.2).1
            (blendParams params.model_name params.denoise_strength
              (_get_model_path s params.model_name me.file_url).2.2).2
            (halfFlag d params.fp32),
          Event.decodeImage] ∧
    Event.enhance ∉ (upscale env s params).2.1 ∧
    Event.encode ∉ (upscale env s params).2.1 := by
  have hnr := get_model_path_not_run s params.model_name me.file_url
  refine ⟨by simp [upscale, hme, hdev, hdec], by simp [upscale, hme, hdev, hdec],
    by simp [upscale, hme, hdev, hdec], ?_, ?_⟩ <;>
    simp [upscale, hme, hdev, hdec, hnr.1, hnr.2.1]

theorem enhance_error_propagation_witness :
    (upscale ⟨⟨false, false⟩, some ⟨[5, 5, 3]⟩, Except.error "CUDA out of memory", true⟩
        ⟨["RealESRGAN_x4plus.pth"]⟩
        ⟨ModelName.RealESRGAN_x4plus, none, DeviceType.CPU, 0, 10, 0, false, none,
          false, 4, "auto"⟩).2.2 =
      Except.error (UpscaleError.runtimeError "CUDA out of memory") ∧
    Event.logError "CUDA out of memory" ∈
      (upscale ⟨⟨false, false⟩, some ⟨[5, 5, 3]⟩, Except.error "CUDA out of memory", true⟩
        ⟨["RealESRGAN_x4plus.pth"]⟩
        ⟨ModelName.RealESRGAN_x4plus, none, DeviceType.CPU, 0, 10, 0, false, none,
          false, 4, "auto"⟩).2.1 ∧
    Event.encode ∉
      (upscale ⟨⟨false, false⟩, some ⟨[5, 5, 3]⟩, Except.error "CUDA out of memory", true⟩
        ⟨["RealESRGAN_x4plus.pth"]⟩
        ⟨ModelName.RealESRGAN_x4plus, none, DeviceType.CPU, 0, 10, 0, false, none,
          false, 4, "auto"⟩).2.1 ∧
    countEnhance
      (upscale ⟨⟨false, false⟩, some ⟨[5, 5, 3]⟩, Except.error "CUDA out of memory", true⟩
        ⟨["RealESRGAN_x4plus.pth"]⟩
        ⟨ModelName.RealESRGAN_x4plus, none, DeviceType.CPU, 0, 10, 0, false, none,
          false, 4, "auto"⟩).2.1 = 1 :=
  enhance_error_propagation.1 _ _ _
    { model := NetworkModel.RRDBNet 3 3 64 23 32 4, netscale := 4,
      file_url := ["https://github.com/xinntao/Real-ESRGAN/releases/download/v0.1.0/RealESRGAN_x4plus.pth"] }
    "cpu" "CUDA out of memory" ⟨[5, 5, 3]⟩ rfl rfl rfl rfl

theorem decode_none_late_failure_witness :
    (upscale ⟨⟨false, false⟩, none, Except.ok 0, true⟩ ⟨["RealESRGAN_x4plus.pth"]⟩
        ⟨ModelName.RealESRGAN_x4plus, none, DeviceType.CPU, 0, 10, 0, false, none,
          false, 4, "auto"⟩).2.2 =
      Except.error UpscaleError.noneTypeAttribute ∧
    Event.enhance ∉
      (upscale ⟨⟨false, false⟩, none, Except.ok 0, true⟩ ⟨["RealESRGAN_x4plus.pth"]⟩
        ⟨ModelName.RealESRGAN_x4plus, none, DeviceType.CPU, 0, 10, 0, false, none,
          false, 4, "auto"⟩).2.1 ∧
    Event.encode ∉
      (upscale ⟨⟨false, false⟩, none, Except.ok 0, true⟩ ⟨["RealESRGAN_x4plus.pth"]⟩
        ⟨ModelName.RealESRGAN_x4plus, none, DeviceType.CPU, 0, 10, 0, false, none,
          false, 4, "auto"⟩).2.1 := by
  have h := decode_none_late_failure ⟨⟨false, false⟩, none, Except.ok 0, true⟩
    ⟨["RealESRGAN_x4plus.pth"]⟩
    ⟨ModelName.RealESRGAN_x4plus, none, DeviceType.CPU, 0, 10, 0, false, none, false, 4, "auto"⟩
    { model := NetworkModel.RRDBNet 3 3 64 23 32 4, netscale := 4,
      file_url := ["https://github.com/xinntao/Real-ESRGAN/releases/download/v0.1.0/RealESRGAN_x4plus.pth"] }
    "cpu" rfl rfl rfl
  exact ⟨h.1, h.2.2.2.1, h.2.2.2.2⟩
